import Mathlib

/- Formal model (shallow embedding) of the CMSI662 shopping-cart library:
   `src/shopping_cart/validators.py`, `catalog.py`, `cart.py`, `types.py`.
   Python strings are modelled as Lean `String` (sequences of Unicode scalar
   values, matching CPython's code-point view), Python `int` as `Int`, and
   `decimal.Decimal` as an explicit sign/coefficient/exponent triple.
   Each validator is translated clause by clause from the source, with one
   error constructor per `raise` site so that which check fires first is
   part of the model. -/

/- Python dynamically-typed arguments (`Any`).  Only the constructors the
   validators actually dispatch on are modelled; `intVal` covers `int`
   (note CPython `bool` is a subclass of `int`, hence the separate
   `boolVal` constructor mirroring the explicit bool rejection in
   `validate_quantity`), `noneVal` stands for any other non-str non-int
   object. -/
inductive PyVal where
  | strVal (s : String)
  | intVal (n : Int)
  | boolVal (b : Bool)
  | noneVal
deriving DecidableEq, Repr

/- validators._contains_null_bytes: `"\x00" in value`. -/
def containsNullBytes (s : String) : Bool :=
  s.data.any (fun c => c = Char.ofNat 0)

/- validators._contains_control_characters:
   `any(ord(c) < 32 and c not in "\n\t" for c in value)`. -/
def isControlExceptNlTab (c : Char) : Bool :=
  c.toNat < 32 && !(c = Char.ofNat 10 || c = Char.ofNat 9)

def containsControlCharacters (s : String) : Bool :=
  s.data.any isControlExceptNlTab

/- Character classes used by the two compiled regexes in types.py. -/
def isUpperAZ (c : Char) : Bool := 'A' ≤ c && c ≤ 'Z'

def isLowerAZ (c : Char) : Bool := 'a' ≤ c && c ≤ 'z'

/- Python `\d` on a `str` pattern matches Unicode decimal digits; the
   ASCII range modelled here is the subset every claim exercises. -/
def isDigit09 (c : Char) : Bool := '0' ≤ c && c ≤ '9'

/- Python `\s` on a `str` pattern (sre category UNI_SPACE): TAB..CR,
   FS..US, SPACE, NEL, NBSP, and the Unicode space separators. -/
def isPyWhitespace (c : Char) : Bool :=
  let n := c.toNat
  (9 ≤ n && n ≤ 13) || (28 ≤ n && n ≤ 31) || n = 32 || n = 0x85 || n = 0xA0 ||
    n = 0x1680 || (0x2000 ≤ n && n ≤ 0x200A) || n = 0x2028 || n = 0x2029 ||
    n = 0x202F || n = 0x205F || n = 0x3000

/- types.CUSTOMER_ID_PATTERN = r"^[A-Z]{3}\d{5}[A-Z]{2}-(A|Q)$" — the
   whole-string match: exactly 12 characters of the stated shape. -/
def customerIdFullmatch : List Char → Bool
  | [a, b, c, d1, d2, d3, d4, d5, e, f, dash, tag] =>
      isUpperAZ a && isUpperAZ b && isUpperAZ c &&
      isDigit09 d1 && isDigit09 d2 && isDigit09 d3 && isDigit09 d4 &&
      isDigit09 d5 && isUpperAZ e && isUpperAZ f &&
      dash = '-' && (tag = 'A' || tag = 'Q')
  | _ => false

/- types.ITEM_NAME_PATTERN = r"^[a-zA-Z0-9\s\-]+$" — whole-string match:
   nonempty, every character in the class. -/
def itemNameClassChar (c : Char) : Bool :=
  isLowerAZ c || isUpperAZ c || isDigit09 c || isPyWhitespace c || c = '-'

def itemNameFullmatch (cs : List Char) : Bool :=
  !cs.isEmpty && cs.all itemNameClassChar

/- CPython `re.match` on a pattern of the form `^...$` (no MULTILINE):
   the match is anchored at the start, and `$` succeeds at the end of the
   string or just before a newline that ends the string.  So the pattern
   matches the whole string, or the whole string minus one final '\n'. -/
def pyMatchAnchored (fullmatch : List Char → Bool) (s : String) : Bool :=
  fullmatch s.data ||
    (match s.data.getLast? with
     | some c => c = Char.ofNat 10 && fullmatch s.data.dropLast
     | none => false)

/- validators.validate_customer_id: one error constructor per raise site,
   in source order (type, null byte, control character, pattern). -/
inductive CustomerIdErr where
  | notString
  | nullBytes
  | controlChars
  | patternMismatch
deriving DecidableEq, Repr

def validate_customer_id : PyVal → Except CustomerIdErr String
  | .strVal s =>
      if containsNullBytes s then .error .nullBytes
      else if containsControlCharacters s then .error .controlChars
      else if !pyMatchAnchored customerIdFullmatch s then .error .patternMismatch
      else .ok s
  | _ => .error .notString

/- validators.validate_quantity with MIN_QUANTITY = 1, MAX_QUANTITY =
   10000.  `belowMin` is the "must be at least" raise, `aboveMax` the
   "cannot exceed" raise; any non-int (or bool) input is `notInt`. -/
inductive QuantityErr where
  | notInt
  | belowMin
  | aboveMax
deriving DecidableEq, Repr

def MIN_QUANTITY : Int := 1
def MAX_QUANTITY : Int := 10000

def validate_quantity : PyVal → Except QuantityErr Int
  | .intVal n =>
      if n < MIN_QUANTITY then .error .belowMin
      else if n > MAX_QUANTITY then .error .aboveMax
      else .ok n
  | _ => .error .notInt

/- validators.validate_item_name with MIN_ITEM_NAME_LENGTH = 1,
   MAX_ITEM_NAME_LENGTH = 100; checks in source order. -/
inductive ItemNameErr where
  | notString
  | nullBytes
  | controlChars
  | tooShort
  | tooLong
  | invalidChars
deriving DecidableEq, Repr

def MIN_ITEM_NAME_LENGTH : Nat := 1
def MAX_ITEM_NAME_LENGTH : Nat := 100

def validate_item_name : PyVal → Except ItemNameErr String
  | .strVal s =>
      if containsNullBytes s then .error .nullBytes
      else if containsControlCharacters s then .error .controlChars
      else if s.length < MIN_ITEM_NAME_LENGTH then .error .tooShort
      else if s.length > MAX_ITEM_NAME_LENGTH then .error .tooLong
      else if !pyMatchAnchored itemNameFullmatch s then .error .invalidChars
      else .ok s
  | _ => .error .notString

/- Python decimal.Decimal, modelled by its `as_tuple()` view: a finite
   value is sign * coefficient * 10^exponent; infinities and NaNs are the
   special values (`as_tuple().exponent` is a non-int string for those).
   Quiet and signaling NaN behave identically under the ordering
   comparisons validate_price performs (both raise InvalidOperation), so
   a single `nan` constructor suffices. -/
inductive PyDecimal where
  | finite (neg : Bool) (coeff : Nat) (exp : Int)
  | infinite (neg : Bool)
  | nan
deriving DecidableEq, Repr

/- Numeric value of a finite decimal, as an exact rational. -/
def PyDecimal.toRat : PyDecimal → ℚ
  | .finite neg c e =>
      let mag : ℚ := if 0 ≤ e then ((c * 10 ^ e.toNat : ℕ) : ℚ)
                     else (c : ℚ) / ((10 ^ (-e).toNat : ℕ) : ℚ)
      if neg then -mag else mag
  | .infinite _ => 0
  | .nan => 0

/- Signed coefficient of a finite decimal rescaled to exponent `m ≤ exp`:
   sign * coeff * 10^(exp - m).  Comparing two finite decimals at their
   common minimum exponent compares their numeric values. -/
def PyDecimal.signedScaled (m : Int) : PyDecimal → Int
  | .finite neg c e =>
      (if neg then -(c : Int) else (c : Int)) * (10 : Int) ^ (e - m).toNat
  | _ => 0

/- Python decimal ordering `a < b`: raises InvalidOperation (modelled as
   `Except.error ()`) when either operand is a NaN; otherwise compares
   values, with infinities below/above every finite value. -/
def decLtSignal (a b : PyDecimal) : Except Unit Bool :=
  match a, b with
  | .nan, _ => .error ()
  | _, .nan => .error ()
  | .finite n c e, .finite n' c' e' =>
      let m := min e e'
      .ok (decide ((PyDecimal.finite n c e).signedScaled m <
                   (PyDecimal.finite n' c' e').signedScaled m))
  | .infinite n, .finite _ _ _ => .ok n
  | .finite _ _ _, .infinite n => .ok !n
  | .infinite n, .infinite n' => .ok (n && !n')

/- Argument passed to validate_price (`Any`):
   `decVal d` — already a Decimal instance (the isinstance branch);
   `convVal d` — a non-Decimal whose `Decimal(str(price))` yields `d`;
   `unconvVal` — a non-Decimal whose conversion raises one of the caught
   exceptions (InvalidOperation/ValueError/TypeError). -/
inductive PriceInput where
  | decVal (d : PyDecimal)
  | convVal (d : PyDecimal)
  | unconvVal
deriving DecidableEq, Repr

inductive PriceErrKind where
  | conversionFailed
  | negative
  | exceedsMax
  | tooManyDecimalPlaces
deriving DecidableEq, Repr

/- Outcome of validate_price.  `priceError` is the PriceValidationError
   the function raises itself; `invalidOperation` is a
   decimal.InvalidOperation escaping *uncaught* from one of the `<`/`>`
   comparisons (the try/except only wraps the conversion). -/
inductive PriceFailure where
  | priceError (kind : PriceErrKind)
  | invalidOperation
deriving DecidableEq, Repr

def MIN_PRICE : PyDecimal := .finite false 0 (-2)
def MAX_PRICE : PyDecimal := .finite false 99999999 (-2)
def PRICE_DECIMAL_PLACES : Int := 2

/- validators.validate_price, clause by clause. -/
def validate_price (price : PriceInput) : Except PriceFailure PyDecimal :=
  match (match price with
         | .decVal d => Except.ok d
         | .convVal d => Except.ok d
         | .unconvVal => Except.error (PriceFailure.priceError .conversionFailed)) with
  | .error e => .error e
  | .ok validated_price =>
    match decLtSignal validated_price MIN_PRICE with
    | .error _ => .error .invalidOperation
    | .ok true => .error (.priceError .negative)
    | .ok false =>
      match decLtSignal MAX_PRICE validated_price with
      | .error _ => .error .invalidOperation
      | .ok true => .error (.priceError .exceedsMax)
      | .ok false =>
        match validated_price with
        | .finite _ _ e =>
            if e < -PRICE_DECIMAL_PLACES then
              .error (.priceError .tooManyDecimalPlaces)
            else .ok validated_price
        | d => .ok d

/- Python `dict` keyed by strings, modelled as an insertion-ordered
   association list; the cart/catalog code only ever inserts distinct
   keys or overwrites existing ones, matching these operations. -/

/- `d[k] = v`: overwrite in place if the key exists, else append. -/
def dictSet (k : String) (v : α) : List (String × α) → List (String × α)
  | [] => [(k, v)]
  | (k', v') :: rest =>
      if k' = k then (k, v) :: rest else (k', v') :: dictSet k v rest

/- `del d[k]`: drop the (unique) binding of `k`. -/
def dictRemove (k : String) : List (String × α) → List (String × α)
  | [] => []
  | (k', v') :: rest =>
      if k' = k then rest else (k', v') :: dictRemove k rest

/- `k in d` / `d.get(k)`. -/
def dictGet (k : String) (d : List (String × α)) : Option α :=
  d.lookup k

/- catalog.CatalogItem: frozen dataclass of validated name and price. -/
structure CatalogItem where
  name : String
  price : PyDecimal
deriving DecidableEq, Repr

/- catalog.Catalog: `_items : dict[ItemName, CatalogItem]`. -/
structure Catalog where
  items : List (String × CatalogItem)
deriving DecidableEq, Repr

/- Catalog.has_item: `item_name in self._items`. -/
def Catalog.has_item (c : Catalog) (item_name : String) : Bool :=
  (dictGet item_name c.items).isSome

/- Catalog.get_price: `self._items.get(item_name)`, `.price` if present,
   None otherwise. -/
def Catalog.get_price (c : Catalog) (item_name : String) : Option PyDecimal :=
  (dictGet item_name c.items).map CatalogItem.price

/- Catalog.get_all_items content: `{name: item.price for ...}` (the
   deepcopy aspect is modelled separately with an explicit heap below). -/
def Catalog.get_all_items (c : Catalog) : List (String × PyDecimal) :=
  c.items.map (fun p => (p.1, p.2.price))

/- cart.ShoppingCart state: `_cart_id` (a fresh uuid4, opaque here),
   `_customer_id`, `_catalog`, `_items : dict[ItemName, Quantity]`. -/
structure ShoppingCart where
  cart_id : Nat
  customer_id : String
  catalog : Catalog
  items : List (String × Int)
deriving DecidableEq, Repr

/- The error taxonomy surfaced by ShoppingCart methods
   (exceptions.py), keeping each validator's sub-kind. -/
inductive CartErr where
  | customerIdError (e : CustomerIdErr)
  | itemNameError (e : ItemNameErr)
  | quantityError (e : QuantityErr)
  | itemNotInCatalog
  | itemNotInCart
  | wrongCatalogType
deriving DecidableEq, Repr

/- The `catalog` argument of ShoppingCart.__init__ (`Any` at runtime):
   either a Catalog instance or anything else. -/
inductive CatalogArg where
  | catalogVal (c : Catalog)
  | notCatalog
deriving DecidableEq, Repr

/- ShoppingCart.__init__: isinstance check first, then uuid4 generation
   (the fresh id is passed in as `fresh_id`), then customer-id
   validation, then the empty item dict. -/
def ShoppingCart.init (fresh_id : Nat) (customer_id : PyVal) (catalog : CatalogArg) :
    Except CartErr ShoppingCart :=
  match catalog with
  | .notCatalog => .error .wrongCatalogType
  | .catalogVal c =>
      match validate_customer_id customer_id with
      | .error e => .error (.customerIdError e)
      | .ok cid => .ok ⟨fresh_id, cid, c, []⟩

/- ShoppingCart.add_item.  A raised exception is an `Except.error`; the
   cart is only replaced on success, matching Python where every raise
   happens before any write to `self._items`. -/
def ShoppingCart.add_item (cart : ShoppingCart) (item_name quantity : PyVal) :
    Except CartErr ShoppingCart :=
  match validate_item_name item_name with
  | .error e => .error (.itemNameError e)
  | .ok name =>
    match validate_quantity quantity with
    | .error e => .error (.quantityError e)
    | .ok q =>
      if !cart.catalog.has_item name then .error .itemNotInCatalog
      else
        match dictGet name cart.items with
        | some q0 =>
            match validate_quantity (.intVal (q0 + q)) with
            | .error e => .error (.quantityError e)
            | .ok new_quantity =>
                .ok { cart with items := dictSet name new_quantity cart.items }
        | none => .ok { cart with items := dictSet name q cart.items }

/- ShoppingCart.update_item_quantity. -/
def ShoppingCart.update_item_quantity (cart : ShoppingCart) (item_name quantity : PyVal) :
    Except CartErr ShoppingCart :=
  match validate_item_name item_name with
  | .error e => .error (.itemNameError e)
  | .ok name =>
    match validate_quantity quantity with
    | .error e => .error (.quantityError e)
    | .ok q =>
      if (dictGet name cart.items).isNone then .error .itemNotInCart
      else .ok { cart with items := dictSet name q cart.items }

/- ShoppingCart.remove_item. -/
def ShoppingCart.remove_item (cart : ShoppingCart) (item_name : PyVal) :
    Except CartErr ShoppingCart :=
  match validate_item_name item_name with
  | .error e => .error (.itemNameError e)
  | .ok name =>
      if (dictGet name cart.items).isNone then .error .itemNotInCart
      else .ok { cart with items := dictRemove name cart.items }

/- ShoppingCart.get_total: fold over `_items`, `total += price * quantity`
   when the catalog lookup is not None, skipping the item otherwise.
   Decimal arithmetic on these operands is exact; the accumulator is the
   exact rational value, starting from Decimal("0.00") = 0. -/
def ShoppingCart.get_total (cart : ShoppingCart) : ℚ :=
  cart.items.foldl
    (fun total p =>
      match cart.catalog.get_price p.1 with
      | some price => total + price.toRat * (p.2 : ℚ)
      | none => total)
    0

/- ShoppingCart.__setattr__ combined with object.__setattr__'s data-
   descriptor protocol.  Assigning attribute `name` on a cart:
   the overridden __setattr__ first rejects names in _IMMUTABLE_FIELDS
   = {"_cart_id", "_customer_id"} with ImmutabilityViolationError;
   otherwise it delegates to object.__setattr__, which raises
   AttributeError for the class's setter-less properties `cart_id` and
   `customer_id`, and performs the write for every other name.  Every
   rejection happens before any state change, so the cart's fields are
   untouched on either error. -/
inductive SetattrOutcome where
  | immutabilityViolation
  | attributeError
  | allowed
deriving DecidableEq, Repr

def cartSetattrOutcome (name : String) : SetattrOutcome :=
  if name = "_cart_id" ∨ name = "_customer_id" then .immutabilityViolation
  else if name = "cart_id" ∨ name = "customer_id" then .attributeError
  else .allowed

/- One public mutating call on a cart, with raw (unvalidated) Python
   arguments. -/
inductive CartOp where
  | add (item_name quantity : PyVal)
  | update (item_name quantity : PyVal)
  | remove (item_name : PyVal)
deriving DecidableEq, Repr

def ShoppingCart.applyOp (cart : ShoppingCart) : CartOp → Except CartErr ShoppingCart
  | .add n q => cart.add_item n q
  | .update n q => cart.update_item_quantity n q
  | .remove n => cart.remove_item n

/- Carts reachable through the public API: a successful construction
   followed by any sequence of successful mutating calls.  (A failed call
   raises before mutating, leaving the Python object in its previous
   state, so failed calls do not change the reachable-state set.) -/
inductive ReachableCart : ShoppingCart → Prop where
  | init (fresh_id : Nat) (customer_id : PyVal) (catalog : CatalogArg)
      (cart : ShoppingCart)
      (h : ShoppingCart.init fresh_id customer_id catalog = .ok cart) :
      ReachableCart cart
  | step (cart : ShoppingCart) (op : CartOp) (cart' : ShoppingCart)
      (h : ReachableCart cart) (hop : cart.applyOp op = .ok cart') :
      ReachableCart cart'

/- The cart invariant of spec §3: every key is a valid item name present
   in the referenced catalog; every quantity is in [1, 10000]. -/
def CartInvariant (cart : ShoppingCart) : Prop :=
  ∀ p ∈ cart.items,
    validate_item_name (.strVal p.1) = .ok p.1 ∧
    cart.catalog.has_item p.1 = true ∧
    MIN_QUANTITY ≤ p.2 ∧ p.2 ≤ MAX_QUANTITY

/- An explicit heap of dictionaries, used to state the defensive-copy
   guarantees of the two read accessors (`deepcopy` allocates a fresh
   container).  `next` is the next fresh address; every address at or
   above `next` is unallocated. -/
structure Heap (δ : Type) where
  next : Nat
  store : Nat → Option δ

def Heap.read (h : Heap δ) (a : Nat) : Option δ := h.store a

def Heap.write (h : Heap δ) (a : Nat) (v : δ) : Heap δ :=
  ⟨h.next, fun x => if x = a then some v else h.store x⟩

def Heap.alloc (h : Heap δ) (v : δ) : Nat × Heap δ :=
  (h.next, ⟨h.next + 1, fun x => if x = h.next then some v else h.store x⟩)

/- `copy.deepcopy` of a str-keyed dict whose values are immutable
   scalars: a fresh container with element-wise equal contents. -/
def deepcopyDict : List (String × α) → List (String × α)
  | [] => []
  | (k, v) :: rest => (k, v) :: deepcopyDict rest

/- ShoppingCart.get_items over the heap: read the cart's internal dict
   (at address `itemsAddr`) and allocate a deep copy; the returned
   address is the caller's handle. -/
def ShoppingCart.get_items_h (itemsAddr : Nat) (h : Heap (List (String × Int))) :
    Nat × Heap (List (String × Int)) :=
  match h.read itemsAddr with
  | some d => h.alloc (deepcopyDict d)
  | none => h.alloc []

/- Catalog.get_all_items over the heap: read the internal CatalogItem
   dict (never written), build the name→price comprehension, and
   deepcopy-allocate it as a fresh dict.  The internal dict and the
   returned name→price dicts have different value types, so they live in
   separate typed regions of the heap (`hcat` is only read; returned
   copies are allocated in `hp`). -/
def Catalog.get_all_items_h (itemsAddr : Nat) (hcat : Heap (List (String × CatalogItem)))
    (hp : Heap (List (String × PyDecimal))) : Nat × Heap (List (String × PyDecimal)) :=
  match hcat.read itemsAddr with
  | some d => hp.alloc (deepcopyDict (d.map (fun p => (p.1, p.2.price))))
  | none => hp.alloc []

/- Attribute assignment restricted to its effect on the two identifier
   fields.  Both rejecting branches raise before any write, so the cart
   is returned unchanged; the `allowed` branch (a write to some other
   attribute, e.g. `_items`) never touches `cart_id`/`customer_id`, which
   is all this projection of the state records — the theorems below only
   ever apply it to the four identifier-related attribute names. -/
def ShoppingCart.trySetIdAttr (cart : ShoppingCart) (name : String) :
    SetattrOutcome × ShoppingCart :=
  match cartSetattrOutcome name with
  | .immutabilityViolation => (.immutabilityViolation, cart)
  | .attributeError => (.attributeError, cart)
  | .allowed => (.allowed, cart)

/- Spec-side definitions, written from the claims' own words, to be
   compared against the code-side definitions above. -/

/- The item-name character set as the spec states it: ASCII letters,
   digits, space, and hyphen only (no tab, newline, or any other
   whitespace, no Unicode). -/
def specItemNameChar (c : Char) : Bool :=
  isLowerAZ c || isUpperAZ c || isDigit09 c || c = ' ' || c = '-'

/- get_total as the spec describes it: the sum, starting from 0.00, over
   all (name, quantity) pairs, of quantity times the catalog's current
   price for the name, a catalog miss contributing zero. -/
def specCartTotal (cart : ShoppingCart) : ℚ :=
  (cart.items.map (fun p =>
    match cart.catalog.get_price p.1 with
    | some price => price.toRat * (p.2 : ℚ)
    | none => 0)).sum

/- "Exact decimal with at most 2 fractional digits": an integer number
   of hundredths. -/
def IsHundredths (q : ℚ) : Prop := ∃ n : ℤ, q = (n : ℚ) / 100

/- Concrete data for the end-to-end scenario of spec §8:
   Catalog({"Widget": 10.99}). -/
def widgetPrice : PyDecimal := .finite false 1099 (-2)

def widgetCatalog : Catalog := ⟨[("Widget", ⟨"Widget", widgetPrice⟩)]⟩

def scenarioCart0 : Except CartErr ShoppingCart :=
  ShoppingCart.init 0 (.strVal "ABC12345XY-A") (.catalogVal widgetCatalog)

def scenarioCart1 : Except CartErr ShoppingCart :=
  scenarioCart0.bind (fun c => c.add_item (.strVal "Widget") (.intVal 2))

def scenarioCart2 : Except CartErr ShoppingCart :=
  scenarioCart1.bind (fun c => c.update_item_quantity (.strVal "Widget") (.intVal 5))

def scenarioCart3 : Except CartErr ShoppingCart :=
  scenarioCart2.bind (fun c => c.remove_item (.strVal "Widget"))

/- Concrete heaps used to exhibit the defensive-copy guarantees on a
   specific state: one allocated cell (address 0) holding the internal
   dict, next fresh address 1. -/
def demoCartHeap : Heap (List (String × Int)) :=
  ⟨1, fun a => if a = 0 then some [("Widget", 2)] else none⟩

def demoCatalogHeap : Heap (List (String × CatalogItem)) :=
  ⟨1, fun a => if a = 0 then some [("Widget", ⟨"Widget", widgetPrice⟩)] else none⟩

def demoPriceHeap : Heap (List (String × PyDecimal)) :=
  ⟨0, fun _ => none⟩

instance exceptDecidableEq {ε α : Type} [DecidableEq ε] [DecidableEq α] :
    DecidableEq (Except ε α) := fun a b =>
  match a, b with
  | .error e, .error e' =>
      if h : e = e' then isTrue (congrArg Except.error h)
      else isFalse (fun hc => h (Except.error.inj hc))
  | .error _, .ok _ => isFalse (fun hc => Except.noConfusion hc)
  | .ok _, .error _ => isFalse (fun hc => Except.noConfusion hc)
  | .ok x, .ok y =>
      if h : x = y then isTrue (congrArg Except.ok h)
      else isFalse (fun hc => h (Except.ok.inj hc))

/- Basic dictionary lemmas. -/

theorem dictGet_some_mem {l : List (String × α)} {k : String} {v : α}
    (h : dictGet k l = some v) : (k, v) ∈ l := by
  induction l with
  | nil => simp [dictGet, List.lookup] at h
  | cons hd tl ih =>
      rw [dictGet, List.lookup] at h
      rcases hd with ⟨k', v'⟩
      by_cases hk : k = k'
      · subst hk
        simp at h
        subst h
        exact List.mem_cons_self _ _
      · have hbeq : (k == k') = false := by
          exact beq_false_of_ne hk
        rw [hbeq] at h
        exact List.mem_cons_of_mem _ (ih h)

theorem mem_dictSet {l : List (String × α)} {k : String} {v : α} {p : String × α}
    (h : p ∈ dictSet k v l) : p = (k, v) ∨ p ∈ l := by
  induction l with
  | nil => simpa [dictSet] using h
  | cons hd tl ih =>
      rcases hd with ⟨k', v'⟩
      rw [dictSet] at h
      by_cases hk : k' = k
      · rw [if_pos hk] at h
        rcases List.mem_cons.mp h with h1 | h2
        · exact Or.inl h1
        · exact Or.inr (List.mem_cons_of_mem _ h2)
      · rw [if_neg hk] at h
        rcases List.mem_cons.mp h with h1 | h2
        · exact Or.inr (h1 ▸ List.mem_cons_self _ _)
        · rcases ih h2 with h3 | h4
          · exact Or.inl h3
          · exact Or.inr (List.mem_cons_of_mem _ h4)

theorem mem_dictRemove {l : List (String × α)} {k : String} {p : String × α}
    (h : p ∈ dictRemove k l) : p ∈ l := by
  induction l with
  | nil => simp [dictRemove] at h
  | cons hd tl ih =>
      rcases hd with ⟨k', v'⟩
      rw [dictRemove] at h
      by_cases hk : k' = k
      · rw [if_pos hk] at h
        exact List.mem_cons_of_mem _ h
      · rw [if_neg hk] at h
        rcases List.mem_cons.mp h with h1 | h2
        · exact h1 ▸ List.mem_cons_self _ _
        · exact List.mem_cons_of_mem _ (ih h2)

theorem dictGet_dictSet_self {l : List (String × α)} {k : String} {v : α} :
    dictGet k (dictSet k v l) = some v := by
  induction l with
  | nil => simp [dictSet, dictGet, List.lookup]
  | cons hd tl ih =>
      rcases hd with ⟨k', v'⟩
      rw [dictSet]
      by_cases hk : k' = k
      · rw [if_pos hk]
        simp [dictGet, List.lookup]
      · rw [if_neg hk]
        rw [dictGet, List.lookup]
        have hbeq : (k == k') = false := beq_false_of_ne (fun h => hk h.symm)
        rw [hbeq]
        exact ih

theorem deepcopyDict_eq (l : List (String × α)) : deepcopyDict l = l := by
  induction l with
  | nil => rfl
  | cons hd tl ih =>
      rcases hd with ⟨k, v⟩
      rw [deepcopyDict, ih]

/- Validator facts used by the cart proofs. -/

theorem validate_item_name_ok_self {v : PyVal} {s : String}
    (h : validate_item_name v = .ok s) : validate_item_name (.strVal s) = .ok s := by
  cases v with
  | strVal t =>
      rw [validate_item_name] at h
      split_ifs at h with h1 h2 h3 h4 h5
      injection h with h'
      subst h'
      rw [validate_item_name, if_neg h1, if_neg h2, if_neg h3, if_neg h4, if_neg h5]
  | intVal n => simp [validate_item_name] at h
  | boolVal b => simp [validate_item_name] at h
  | noneVal => simp [validate_item_name] at h

theorem validate_quantity_ok_bounds {v : PyVal} {q : Int}
    (h : validate_quantity v = .ok q) : MIN_QUANTITY ≤ q ∧ q ≤ MAX_QUANTITY := by
  cases v with
  | intVal n =>
      rw [validate_quantity] at h
      split_ifs at h with h1 h2
      injection h with h'
      subst h'
      exact ⟨le_of_not_lt h1, le_of_not_lt h2⟩
  | strVal s => simp [validate_quantity] at h
  | boolVal b => simp [validate_quantity] at h
  | noneVal => simp [validate_quantity] at h

theorem validate_quantity_int_ok {q : Int}
    (h1 : MIN_QUANTITY ≤ q) (h2 : q ≤ MAX_QUANTITY) :
    validate_quantity (.intVal q) = .ok q := by
  rw [validate_quantity, if_neg (not_lt.mpr h1), if_neg (not_lt.mpr h2)]

/- Invariant preservation, one lemma per mutating method. -/

theorem add_item_invariant {cart cart' : ShoppingCart} {n q : PyVal}
    (hinv : CartInvariant cart) (h : cart.add_item n q = .ok cart') :
    CartInvariant cart' := by
  rw [ShoppingCart.add_item] at h
  split at h
  · simp at h
  next name hn =>
  split at h
  · simp at h
  next qv hq =>
  split at h
  · simp at h
  next hcond =>
  have hcat : cart.catalog.has_item name = true := by
    simpa using hcond
  split at h
  next q0 hg =>
    split at h
    · simp at h
    next nq hq2 =>
      injection h with h'
      subst h'
      intro p hp
      rcases mem_dictSet hp with rfl | hmem
      · exact ⟨validate_item_name_ok_self hn, hcat,
          (validate_quantity_ok_bounds hq2).1, (validate_quantity_ok_bounds hq2).2⟩
      · exact hinv p hmem
  next hg =>
    injection h with h'
    subst h'
    intro p hp
    rcases mem_dictSet hp with rfl | hmem
    · exact ⟨validate_item_name_ok_self hn, hcat,
        (validate_quantity_ok_bounds hq).1, (validate_quantity_ok_bounds hq).2⟩
    · exact hinv p hmem

theorem update_item_quantity_invariant {cart cart' : ShoppingCart} {n q : PyVal}
    (hinv : CartInvariant cart) (h : cart.update_item_quantity n q = .ok cart') :
    CartInvariant cart' := by
  rw [ShoppingCart.update_item_quantity] at h
  split at h
  · simp at h
  next name hn =>
  split at h
  · simp at h
  next qv hq =>
  split at h
  · simp at h
  next hcond =>
  obtain ⟨q0, hg⟩ : ∃ q0, dictGet name cart.items = some q0 := by
    cases hg0 : dictGet name cart.items with
    | none => rw [hg0] at hcond; simp at hcond
    | some q0 => exact ⟨q0, rfl⟩
  injection h with h'
  subst h'
  intro p hp
  rcases mem_dictSet hp with rfl | hmem
  · have hkey := hinv (name, q0) (dictGet_some_mem hg)
    exact ⟨hkey.1, hkey.2.1,
      (validate_quantity_ok_bounds hq).1, (validate_quantity_ok_bounds hq).2⟩
  · exact hinv p hmem

theorem remove_item_invariant {cart cart' : ShoppingCart} {n : PyVal}
    (hinv : CartInvariant cart) (h : cart.remove_item n = .ok cart') :
    CartInvariant cart' := by
  rw [ShoppingCart.remove_item] at h
  split at h
  · simp at h
  next name hn =>
  split at h
  · simp at h
  next hcond =>
  injection h with h'
  subst h'
  intro p hp
  exact hinv p (mem_dictRemove hp)

theorem init_invariant {fresh_id : Nat} {customer_id : PyVal} {catalog : CatalogArg}
    {cart : ShoppingCart} (h : ShoppingCart.init fresh_id customer_id catalog = .ok cart) :
    CartInvariant cart := by
  cases catalog with
  | notCatalog => simp [ShoppingCart.init] at h
  | catalogVal c =>
      rw [ShoppingCart.init] at h
      split at h
      · simp at h
      next s hv =>
        injection h with h'
        subst h'
        intro p hp
        simp at hp

/-- C1: every ShoppingCart state reachable through construction followed by
any sequence of successful add_item / update_item_quantity / remove_item
calls satisfies the invariant — every key of the item mapping validates as
an item name and is present in the referenced catalog, and every stored
quantity q satisfies 1 ≤ q ≤ 10000 — and each of the three mutating
operations preserves this invariant. -/
theorem reachable_cart_invariant :
    (∀ cart : ShoppingCart, ReachableCart cart → CartInvariant cart) ∧
    (∀ (cart cart' : ShoppingCart) (op : CartOp),
      CartInvariant cart → cart.applyOp op = .ok cart' → CartInvariant cart') := by
  constructor
  · intro cart h
    induction h with
    | init fid cid arg cart0 hinit => exact init_invariant hinit
    | step cart0 op cart1 hr hop ih =>
        cases op with
        | add n q => exact add_item_invariant ih hop
        | update n q => exact update_item_quantity_invariant ih hop
        | remove n => exact remove_item_invariant ih hop
  · intro cart cart' op hinv hop
    cases op with
    | add n q => exact add_item_invariant hinv hop
    | update n q => exact update_item_quantity_invariant hinv hop
    | remove n => exact remove_item_invariant hinv hop

theorem reachable_cart_invariant_witness :
    CartInvariant { cart_id := 0, customer_id := "ABC12345XY-A",
                    catalog := widgetCatalog, items := [("Widget", 2)] } := by
  apply reachable_cart_invariant.1
  exact ReachableCart.step _ (.add (.strVal "Widget") (.intVal 2)) _
    (ReachableCart.init 0 (.strVal "ABC12345XY-A") (.catalogVal widgetCatalog) _ rfl) rfl

/-- C2: on a cart already holding `name` with quantity q0, add_item with a
valid quantity q fails with the quantity "cannot exceed" error whenever
q0 + q > 10000, leaving the mapping unchanged (the raise precedes any
write, so the error result carries no new state), and succeeds with stored
quantity q0 + q whenever q0 + q ≤ 10000. -/
theorem add_item_existing_overflow (cart : ShoppingCart) (name : String) (q0 q : Int)
    (hinv : CartInvariant cart)
    (hmem : dictGet name cart.items = some q0)
    (hq1 : MIN_QUANTITY ≤ q) (hq2 : q ≤ MAX_QUANTITY) :
    (MAX_QUANTITY < q0 + q →
      cart.add_item (.strVal name) (.intVal q) = .error (.quantityError .aboveMax)) ∧
    (q0 + q ≤ MAX_QUANTITY →
      cart.add_item (.strVal name) (.intVal q) =
        .ok { cart with items := dictSet name (q0 + q) cart.items } ∧
      dictGet name (dictSet name (q0 + q) cart.items) = some (q0 + q)) := by
  have hkey := hinv (name, q0) (dictGet_some_mem hmem)
  have hname := hkey.1
  have hcat := hkey.2.1
  have hq01 := hkey.2.2.1
  have hnotmin : ¬(q0 + q < MIN_QUANTITY) := by
    unfold MIN_QUANTITY at hq01 hq1 ⊢
    omega
  constructor
  · intro hover
    have hvq : validate_quantity (.intVal (q0 + q)) = .error .aboveMax := by
      rw [validate_quantity, if_neg hnotmin, if_pos hover]
    simp only [ShoppingCart.add_item, hname, validate_quantity_int_ok hq1 hq2, hcat,
      Bool.not_true, Bool.false_eq_true, if_false, hmem, hvq]
  · intro hle
    have hvq : validate_quantity (.intVal (q0 + q)) = .ok (q0 + q) :=
      validate_quantity_int_ok (not_lt.mp hnotmin) hle
    constructor
    · simp only [ShoppingCart.add_item, hname, validate_quantity_int_ok hq1 hq2, hcat,
        Bool.not_true, Bool.false_eq_true, if_false, hmem, hvq]
    · exact dictGet_dictSet_self

theorem add_item_existing_overflow_witness :
    ({ cart_id := 0, customer_id := "ABC12345XY-A", catalog := widgetCatalog,
       items := [("Widget", 9999)] } : ShoppingCart).add_item
        (.strVal "Widget") (.intVal 2) = .error (.quantityError .aboveMax) :=
  (add_item_existing_overflow
      { cart_id := 0, customer_id := "ABC12345XY-A", catalog := widgetCatalog,
        items := [("Widget", 9999)] }
      "Widget" 9999 2 (by unfold CartInvariant; decide) rfl
      (by decide) (by decide)).1 (by decide)

theorem get_total_foldl_eq (cat : Catalog) (l : List (String × Int)) (a : ℚ) :
    l.foldl (fun total p =>
      match cat.get_price p.1 with
      | some price => total + price.toRat * (p.2 : ℚ)
      | none => total) a
    = a + (l.map (fun p =>
      match cat.get_price p.1 with
      | some price => price.toRat * (p.2 : ℚ)
      | none => (0 : ℚ))).sum := by
  induction l generalizing a with
  | nil => simp
  | cons hd tl ih =>
      rw [List.foldl_cons, ih, List.map_cons, List.sum_cons]
      cases h : cat.get_price hd.1 with
      | none => simp [h]
      | some price => simp [h]; ring

/-- C3: get_total is exactly the spec's fold — the sum, from 0.00, of
quantity times the catalog's current price over all item pairs, with a
catalog miss contributing zero rather than failing — and the §8 scenario
evaluates as stated: Widget at 10.99 gives totals 21.98 (quantity 2),
54.95 (quantity 5), 0.00 after removal, and an item missing from the
catalog contributes nothing. -/
theorem get_total_correct :
    (∀ cart : ShoppingCart, cart.get_total = specCartTotal cart) ∧
    scenarioCart0.map ShoppingCart.get_total = .ok 0 ∧
    scenarioCart1.map ShoppingCart.get_total = .ok (2198 / 100 : ℚ) ∧
    scenarioCart2.map ShoppingCart.get_total = .ok (5495 / 100 : ℚ) ∧
    scenarioCart3.map ShoppingCart.get_total = .ok 0 ∧
    ({ cart_id := 0, customer_id := "ABC12345XY-A", catalog := widgetCatalog,
       items := [("Widget", 2), ("Ghost", 7)] } : ShoppingCart).get_total
      = (2198 / 100 : ℚ) := by
  have hwidget : widgetCatalog.get_price "Widget" = some widgetPrice := rfl
  have hghost : widgetCatalog.get_price "Ghost" = none := rfl
  have htn : ((-(-2 : ℤ)).toNat) = 2 := rfl
  refine ⟨?_, by decide, ?_, ?_, by decide, ?_⟩
  · intro cart
    rw [ShoppingCart.get_total, specCartTotal, get_total_foldl_eq, zero_add]
  · have hsc : scenarioCart1 =
        .ok ⟨0, "ABC12345XY-A", widgetCatalog, [("Widget", 2)]⟩ := rfl
    rw [hsc]
    simp only [Except.map]
    congr 1
    simp only [ShoppingCart.get_total, List.foldl, hwidget, widgetPrice, PyDecimal.toRat, htn]
    norm_num
  · have hsc : scenarioCart2 =
        .ok ⟨0, "ABC12345XY-A", widgetCatalog, [("Widget", 5)]⟩ := rfl
    rw [hsc]
    simp only [Except.map]
    congr 1
    simp only [ShoppingCart.get_total, List.foldl, hwidget, widgetPrice, PyDecimal.toRat, htn]
    norm_num
  · simp only [ShoppingCart.get_total, List.foldl, hwidget, hghost, widgetPrice,
      PyDecimal.toRat, htn]
    norm_num

/-- C4: validate_price behaves as claimed on the claim's examples (10.5
and 10 pass, 10.999 and 1000000.00 fail, 999999.99 passes, negatives
fail), but a NaN input — Decimal("NaN"), or the string "NaN" which
converts without error — escapes as an uncaught decimal.InvalidOperation
raised by the `<` comparison against MIN_PRICE, which is not a
price-specific validation error kind, refuting the claim's "no input
produces a failure of any other kind". -/
theorem validate_price_nan_escapes :
    validate_price (.decVal .nan) = .error .invalidOperation ∧
    validate_price (.convVal .nan) = .error .invalidOperation ∧
    (∀ k : PriceErrKind, PriceFailure.invalidOperation ≠ .priceError k) ∧
    validate_price (.convVal (.finite false 105 (-1))) = .ok (.finite false 105 (-1)) ∧
    validate_price (.convVal (.finite false 10 0)) = .ok (.finite false 10 0) ∧
    validate_price (.convVal (.finite false 10999 (-3))) =
      .error (.priceError .tooManyDecimalPlaces) ∧
    validate_price (.convVal (.finite false 100000000 (-2))) =
      .error (.priceError .exceedsMax) ∧
    validate_price (.convVal (.finite false 99999999 (-2))) =
      .ok (.finite false 99999999 (-2)) ∧
    validate_price (.decVal (.finite true 1 (-2))) = .error (.priceError .negative) ∧
    validate_price .unconvVal = .error (.priceError .conversionFailed) := by
  refine ⟨rfl, rfl, ?_, rfl, rfl, rfl, rfl, rfl, rfl, rfl⟩
  intro k hk
  cases hk

/-- C5: the claim states validate_item_name succeeds exactly on strings of
1..100 characters drawn from ASCII letters, digits, space, and hyphen
(no tab, no newline, no Unicode).  The code compiles the charset
`[a-zA-Z0-9\s\-]` whose `\s` matches tab, newline, and Unicode whitespace
(all exempted from the control-character check or outside it), so
"a\tb" and "Widget " are accepted although they contain characters
outside the claimed charset — the code contradicts its own docstring and
error message ("alphanumeric, spaces, and hyphens"). -/
theorem validate_item_name_accepts_tab :
    validate_item_name (.strVal "a\tb") = .ok "a\tb" ∧
    "a\tb".data.all specItemNameChar = false ∧
    validate_item_name (.strVal "Widget ") = .ok "Widget " ∧
    "Widget ".data.all specItemNameChar = false ∧
    validate_item_name (.strVal "Widget") = .ok "Widget" ∧
    validate_item_name (.strVal "Widget!") = .error .invalidChars ∧
    validate_item_name (.strVal "Wi\x01dget") = .error .controlChars :=
  ⟨rfl, rfl, rfl, rfl, rfl, rfl, rfl⟩

/-- C6: the claim states validate_customer_id succeeds exactly on strings
whose entire content matches the 3-letters/5-digits/2-letters/hyphen/A-or-Q
pattern, any trailing character making it fail.  CPython's `re.match`
with a `$` anchor also matches when a single newline ends the string, and
'\n' is exempted from the control-character check, so "ABC12345XY-A\n" is
accepted although it is not an exact pattern match — contradicting the
code's own docstring ("matches format XXX#####XX-[A|Q]").  The check
order type → null-byte → control-character → pattern is as claimed. -/
theorem validate_customer_id_accepts_trailing_newline :
    validate_customer_id (.strVal "ABC12345XY-A\n") = .ok "ABC12345XY-A\n" ∧
    customerIdFullmatch "ABC12345XY-A\n".data = false ∧
    validate_customer_id (.strVal "ABC12345XY-A") = .ok "ABC12345XY-A" ∧
    validate_customer_id (.strVal "XABC12345XY-A") = .error .patternMismatch ∧
    validate_customer_id (.strVal "ABC12345XY-AX") = .error .patternMismatch ∧
    validate_customer_id (.strVal "ABC12345XY-A\x01") = .error .controlChars ∧
    validate_customer_id (.intVal 3) = .error .notString :=
  ⟨rfl, rfl, rfl, rfl, rfl, rfl, rfl⟩

/-- C7 counterexample: assigning through the public attribute name
`cart_id` is rejected by object.__setattr__ with a plain AttributeError
(the property has no setter; "cart_id" is not in _IMMUTABLE_FIELDS), not
with the specific immutability-violation kind the claim requires for
every assignment route — the repository's own test
test_cart_id_property_readonly expects AttributeError here. -/
theorem setattr_public_name_not_immutability_error :
    cartSetattrOutcome "cart_id" = .attributeError ∧
    SetattrOutcome.attributeError ≠ SetattrOutcome.immutabilityViolation :=
  ⟨rfl, fun h => SetattrOutcome.noConfusion h⟩

/-- C7 amended: assignment to the underlying fields `_cart_id` and
`_customer_id` is rejected with the immutability-violation error kind;
assignment via the public property names `cart_id` and `customer_id` is
rejected with AttributeError (setter-less property); in all four cases
the raise precedes any write, so the cart — in particular both identifier
fields — is observed unchanged afterwards. -/
theorem setattr_id_fields_rejected (cart : ShoppingCart) :
    cart.trySetIdAttr "_cart_id" = (.immutabilityViolation, cart) ∧
    cart.trySetIdAttr "_customer_id" = (.immutabilityViolation, cart) ∧
    cart.trySetIdAttr "cart_id" = (.attributeError, cart) ∧
    cart.trySetIdAttr "customer_id" = (.attributeError, cart) :=
  ⟨rfl, rfl, rfl, rfl⟩

theorem setattr_id_fields_rejected_witness :
    ({ cart_id := 0, customer_id := "ABC12345XY-A", catalog := widgetCatalog,
       items := [] } : ShoppingCart).trySetIdAttr "_cart_id"
      = (.immutabilityViolation,
         { cart_id := 0, customer_id := "ABC12345XY-A", catalog := widgetCatalog,
           items := [] }) :=
  (setattr_id_fields_rejected
    { cart_id := 0, customer_id := "ABC12345XY-A", catalog := widgetCatalog,
      items := [] }).1

/-- C9: ShoppingCart.__init__ checks `isinstance(catalog, Catalog)` before
anything else: for every customer_id value (valid or not), a non-Catalog
argument yields the wrong-catalog TypeError and never a customer-id
validation error; when the argument is a Catalog, the customer id is
validated and a successful construction stores exactly the validated
value. -/
theorem init_catalog_type_checked_first (fresh_id : Nat) (customer_id : PyVal) :
    ShoppingCart.init fresh_id customer_id .notCatalog = .error .wrongCatalogType ∧
    (∀ (c : Catalog) (cart : ShoppingCart),
      ShoppingCart.init fresh_id customer_id (.catalogVal c) = .ok cart →
      validate_customer_id customer_id = .ok cart.customer_id) := by
  constructor
  · rfl
  · intro c cart h
    rw [ShoppingCart.init] at h
    split at h
    · simp at h
    next s hv =>
      injection h with h'
      subst h'
      exact hv

theorem init_catalog_type_checked_first_witness :
    ShoppingCart.init 0 (.intVal 7) .notCatalog = .error .wrongCatalogType :=
  (init_catalog_type_checked_first 0 (.intVal 7)).1

theorem sum_hundredths {l : List ℚ} (h : ∀ x ∈ l, IsHundredths x) :
    IsHundredths l.sum := by
  induction l with
  | nil => exact ⟨0, by simp⟩
  | cons hd tl ih =>
      obtain ⟨n, hn⟩ := h hd (List.mem_cons_self _ _)
      obtain ⟨m, hm⟩ := ih (fun x hx => h x (List.mem_cons_of_mem _ hx))
      refine ⟨n + m, ?_⟩
      rw [List.sum_cons, hn, hm]
      push_cast
      ring

/-- C10: whenever every price in the cart's catalog is an exact multiple
of one hundredth (as validate_price guarantees for every validated price,
since it rejects exponents below -2), get_total is itself an exact
multiple of one hundredth: the fold of price-times-quantity products
introduces no extra fractional precision. -/
theorem get_total_hundredths (cart : ShoppingCart)
    (hcat : ∀ p ∈ cart.catalog.items, IsHundredths p.2.price.toRat) :
    IsHundredths cart.get_total := by
  rw [ShoppingCart.get_total, get_total_foldl_eq, zero_add]
  apply sum_hundredths
  intro x hx
  obtain ⟨p, hp, rfl⟩ := List.mem_map.mp hx
  cases hpr : cart.catalog.get_price p.1 with
  | none => simp only [hpr]; exact ⟨0, by norm_num⟩
  | some price =>
      simp only [hpr]
      rw [Catalog.get_price] at hpr
      obtain ⟨item, hitem, hprice⟩ := Option.map_eq_some'.mp hpr
      obtain ⟨n, hn⟩ := hcat (p.1, item) (dictGet_some_mem hitem)
      refine ⟨n * p.2, ?_⟩
      rw [← hprice, hn]
      push_cast
      ring

theorem get_total_hundredths_witness :
    IsHundredths ((⟨0, "ABC12345XY-A", widgetCatalog, [("Widget", 3)]⟩ :
      ShoppingCart).get_total) := by
  apply get_total_hundredths
  intro p hp
  have hp2 : p = ("Widget", ⟨"Widget", widgetPrice⟩) := by
    simpa [widgetCatalog] using hp
  subst hp2
  refine ⟨1099, ?_⟩
  have htn : ((-(-2 : ℤ)).toNat) = 2 := rfl
  simp only [widgetPrice, PyDecimal.toRat, htn]
  norm_num

/-- C8: the two read accessors return the current internal contents and a
fresh, independent container.  For the cart, get_items reads the internal
dict at `itemsAddr` and allocates a deep copy at a fresh address: the copy
equals the internal contents, and any write the caller performs at the
copy's address leaves both the internal dict (hence every subsequent
method call) and a separately obtained second copy unchanged.  For the
catalog, get_all_items builds the name→price projection of the internal
CatalogItem dict and allocates it fresh in the price-dict region, which
is disjoint from the internal region, so caller writes can never reach
the catalog's state; two copies are distinct and mutating one leaves the
other unchanged. -/
theorem defensive_copy_accessors
    (itemsAddr : Nat) (h : Heap (List (String × Int))) (d : List (String × Int))
    (a1 a2 : Nat) (h1 h2 : Heap (List (String × Int)))
    (catAddr : Nat) (hcat : Heap (List (String × CatalogItem)))
    (dcat : List (String × CatalogItem))
    (b1 b2 : Nat) (hp hp1 hp2 : Heap (List (String × PyDecimal)))
    (hvalid : itemsAddr < h.next)
    (hread : h.read itemsAddr = some d)
    (hc1 : ShoppingCart.get_items_h itemsAddr h = (a1, h1))
    (hc2 : ShoppingCart.get_items_h itemsAddr h1 = (a2, h2))
    (hreadc : hcat.read catAddr = some dcat)
    (hb1 : Catalog.get_all_items_h catAddr hcat hp = (b1, hp1))
    (hb2 : Catalog.get_all_items_h catAddr hcat hp1 = (b2, hp2)) :
    h1.read a1 = some d ∧
    a1 ≠ itemsAddr ∧ a2 ≠ itemsAddr ∧ a2 ≠ a1 ∧
    h1.read itemsAddr = some d ∧
    (∀ v, (h2.write a1 v).read itemsAddr = some d) ∧
    (∀ v, (h2.write a1 v).read a2 = some d) ∧
    hp1.read b1 = some (dcat.map (fun p => (p.1, p.2.price))) ∧
    b2 ≠ b1 ∧
    (∀ v, (hp2.write b1 v).read b2 = some (dcat.map (fun p => (p.1, p.2.price)))) := by
  have hne1 : itemsAddr ≠ h.next := Nat.ne_of_lt hvalid
  rw [ShoppingCart.get_items_h, hread, Heap.alloc] at hc1
  injection hc1 with ha1 hh1
  subst ha1
  subst hh1
  have hr1 : (Heap.read
      ⟨h.next + 1, fun x => if x = h.next then some (deepcopyDict d) else h.store x⟩
      itemsAddr : Option (List (String × Int))) = some d := by
    dsimp only [Heap.read]
    rw [if_neg hne1]
    exact hread
  rw [ShoppingCart.get_items_h, hr1, Heap.alloc] at hc2
  injection hc2 with ha2 hh2
  subst ha2
  subst hh2
  rw [Catalog.get_all_items_h, hreadc, Heap.alloc] at hb1
  injection hb1 with hb1a hb1h
  subst hb1a
  subst hb1h
  rw [Catalog.get_all_items_h, hreadc, Heap.alloc] at hb2
  injection hb2 with hb2a hb2h
  subst hb2a
  subst hb2h
  refine ⟨?_, Ne.symm hne1, ?_, ?_, hr1, ?_, ?_, ?_, ?_, ?_⟩
  · dsimp only [Heap.read]
    rw [if_pos rfl, deepcopyDict_eq]
  · dsimp only
    omega
  · dsimp only
    omega
  · intro v
    dsimp only [Heap.read, Heap.write]
    rw [if_neg hne1, if_neg (by omega : itemsAddr ≠ h.next + 1), if_neg hne1]
    exact hread
  · intro v
    dsimp only [Heap.read, Heap.write]
    rw [if_neg (by omega : h.next + 1 ≠ h.next), if_pos rfl, deepcopyDict_eq]
  · dsimp only [Heap.read]
    rw [if_pos rfl, deepcopyDict_eq]
  · dsimp only
    omega
  · intro v
    dsimp only [Heap.read, Heap.write]
    rw [if_neg (by omega : hp.next + 1 ≠ hp.next), if_pos rfl, deepcopyDict_eq]

theorem defensive_copy_accessors_witness :
    ((ShoppingCart.get_items_h 0 demoCartHeap).2).read
        (ShoppingCart.get_items_h 0 demoCartHeap).1 = some [("Widget", 2)] := by
  obtain ⟨hA, -, -, -, -, -, -, -, -, -⟩ :=
    defensive_copy_accessors 0 demoCartHeap [("Widget", 2)] _ _ _ _
      0 demoCatalogHeap [("Widget", ⟨"Widget", widgetPrice⟩)] _ _ demoPriceHeap _ _
      (by decide) rfl rfl rfl rfl rfl rfl
  exact hA
